import Mathlib

/-!
Shallow embedding of the MCP weather quickstart sample:
a stdio MCP client (src/client/main.py) and a weather MCP server
(src/server/main.py).

External collaborators are modelled as oracle functions supplied as
parameters: the completion service as the initial list of content blocks
plus a function from continuation-call index to the continuation
response content, the MCP call_tool result payload as a function from
call index to an opaque string, and HTTP fetches as a function from URL
to an optional decoded JSON body. Python exceptions are modelled with
Except PyErr. Python mutable-list aliasing in process_query is modelled
by an explicit shared-accumulator reference in message contents.
-/

/-- Python exception kinds raised on the embedded code paths. -/
inductive PyErr where
  | valueError (msg : String)
  | keyError (key : String)
  | typeError
  | attributeError
  | indexError
  | systemExit (code : Nat)
  deriving DecidableEq

/-- A content block of a completion response: the completion API used in
process_query returns text blocks and tool-use blocks. A tool-use block
carries an id, a tool name, and an input; the input (a Python dict) is
modelled by its string rendering, which is all the orchestrator does with
it besides passing it through opaquely to call_tool. -/
inductive ContentBlock where
  | text (t : String)
  | toolUse (id name input : String)
  deriving DecidableEq

/-- Message roles in the conversation the orchestrator builds. -/
inductive Role where
  | user
  | assistant
  deriving DecidableEq

/-- Content of a message appended to the conversation list.
queryText is the initial user message holding the raw query string;
sharedAcc is a reference to the single mutable assistant-content list
(Python appends the same list object each time, so every assistant
message aliases it); toolResult is the user message wrapping a
call_tool result, whose payload is modelled as an opaque string. -/
inductive MsgContent where
  | queryText (q : String)
  | sharedAcc
  | toolResult (id content : String)
  deriving DecidableEq

/-- One conversation message. -/
structure Message where
  role : Role
  content : MsgContent
  deriving DecidableEq

/-- The mutable local state of one process_query invocation:
final_text, assistant_message_content (the single shared list),
messages, the record of call_tool invocations made so far, and the
number of continuation completion calls made so far. -/
structure PQState where
  finalText : List String
  acc : List ContentBlock
  messages : List Message
  toolCalls : List (String × String)
  k : Nat
  deriving DecidableEq

/-- The trace line appended to final_text for a tool call, from the
f-string in process_query with the name and input rendered in. -/
def traceLine (name input : String) : String :=
  "[Calling tool " ++ name ++ " with args " ++ input ++ "]"

/-- Processing of one content block of the initial completion response,
from the loop body of process_query. A text block appends its text to
final_text and the block to the shared accumulator. A tool-use block
performs call_tool (whose result payload is the oracle tr at the index
of this call), appends the trace line, appends the block to the shared
accumulator, appends the assistant message aliasing the accumulator and
the tool-result user message, performs the continuation completion call
(the oracle cont at the index of this continuation), and appends the
continuation content at Python index 0 via its .text attribute: an empty
continuation content raises IndexError and a non-text first block raises
AttributeError, exactly as the subscript and attribute access do. -/
def step (cont : Nat → List ContentBlock) (tr : Nat → String)
    (s : PQState) (b : ContentBlock) : Except PyErr PQState :=
  match b with
  | .text t =>
      .ok { s with finalText := s.finalText ++ [t],
                   acc := s.acc ++ [ContentBlock.text t] }
  | .toolUse id name input =>
      let res := tr s.toolCalls.length
      let acc1 := s.acc ++ [ContentBlock.toolUse id name input]
      let msgs1 := s.messages ++
        [⟨Role.assistant, MsgContent.sharedAcc⟩,
         ⟨Role.user, MsgContent.toolResult id res⟩]
      match cont s.k with
      | [] => .error PyErr.indexError
      | ContentBlock.text t :: _ =>
          .ok ⟨s.finalText ++ [traceLine name input, t], acc1, msgs1,
               s.toolCalls ++ [(name, input)], s.k + 1⟩
      | ContentBlock.toolUse _ _ _ :: _ => .error PyErr.attributeError

/-- The for-loop of process_query over the initial response content.
Python evaluates the loop iterator once, over the initial response
content list; rebinding the local variable response inside the loop does
not change what is iterated, so only the initial blocks are dispatched. -/
def runBlocks (cont : Nat → List ContentBlock) (tr : Nat → String) :
    List ContentBlock → PQState → Except PyErr PQState
  | [], s => .ok s
  | b :: bs, s =>
      match step cont tr s b with
      | .error e => .error e
      | .ok s1 => runBlocks cont tr bs s1

/-- The state at loop entry: empty final_text and accumulator, the
conversation seeded with the single user message holding the query, no
tool calls yet, no continuation calls yet. -/
def initState (q : String) : PQState :=
  ⟨[], [], [⟨Role.user, MsgContent.queryText q⟩], [], 0⟩

/-- Python str.join: separator interleaved between elements. -/
def pyJoin (sep : String) : List String → String
  | [] => ""
  | [x] => x
  | x :: y :: rest => x ++ sep ++ pyJoin sep (y :: rest)

/-- MCPClient.process_query given the initial completion response
content (blocks), the continuation-response oracle cont and the
call_tool result oracle tr; returns the joined final_text on success.
The list_tools refresh and the tool-schema forwarding at the top of the
method are elided: they produce the data sent to the external completion
service, which is the oracle here, and touch none of the local state. -/
def process_query (q : String) (cont : Nat → List ContentBlock)
    (tr : Nat → String) (blocks : List ContentBlock) : Except PyErr String :=
  (runBlocks cont tr blocks (initState q)).map (fun s => pyJoin "\n" s.finalText)

/-- Number of tool-use blocks in a content list. -/
def cntTU : List ContentBlock → Nat
  | [] => 0
  | ContentBlock.text _ :: bs => cntTU bs
  | ContentBlock.toolUse _ _ _ :: bs => cntTU bs + 1

/-- The (name, input) pairs of the tool-use blocks, in order. -/
def tuPairs : List ContentBlock → List (String × String)
  | [] => []
  | ContentBlock.text _ :: bs => tuPairs bs
  | ContentBlock.toolUse _ name input :: bs => (name, input) :: tuPairs bs

/-- The texts of the text blocks, in order. -/
def textsOf : List ContentBlock → List String
  | [] => []
  | ContentBlock.text t :: bs => t :: textsOf bs
  | ContentBlock.toolUse _ _ _ :: bs => textsOf bs

/-- Text of the first block of a content list, defaulting to "". -/
def headTextD : List ContentBlock → String
  | ContentBlock.text t :: _ => t
  | _ => ""

/-- A continuation response that process_query can consume: nonempty
with a text block first. -/
def goodCont (l : List ContentBlock) : Prop :=
  ∃ t rest, l = ContentBlock.text t :: rest

/-- The final_text lines produced from a block list, starting at
continuation index k: each text block contributes its text, each
tool-use block its trace line followed by the text of the first block
of the corresponding continuation response. -/
def outSpec (cont : Nat → List ContentBlock) : Nat → List ContentBlock → List String
  | _, [] => []
  | k, ContentBlock.text t :: bs => t :: outSpec cont k bs
  | k, ContentBlock.toolUse _ name input :: bs =>
      traceLine name input :: headTextD (cont k) :: outSpec cont (k + 1) bs

/-- The messages appended to the conversation from a block list, with n
the number of call_tool invocations already made: each tool-use block
appends the assistant message aliasing the shared accumulator and the
user message wrapping the call_tool result. -/
def msgSpec (tr : Nat → String) : Nat → List ContentBlock → List Message
  | _, [] => []
  | n, ContentBlock.text _ :: bs => msgSpec tr n bs
  | n, ContentBlock.toolUse id _ _ :: bs =>
      ⟨Role.assistant, MsgContent.sharedAcc⟩ ::
      ⟨Role.user, MsgContent.toolResult id (tr n)⟩ :: msgSpec tr (n + 1) bs

deriving instance DecidableEq for Except

/-- Python str.endswith: the candidate characters are a suffix of the
string's characters. -/
def pyEndsWith (s sfx : String) : Bool :=
  decide (sfx.data <:+ s.data)

/-- The ValueError message raised by connect_to_server for an
unrecognized script suffix. -/
def badSuffixMsg : String :=
  "サーバースクリプトは .py または .js ファイルでなければなりません。"

/-- MCPClient.connect_to_server up to interpreter selection: computes
is_python and is_js from the path suffix, raises ValueError when
neither holds, and otherwise picks the command string exactly as the
conditional expression does. -/
def connect_command (server_script_path : String) : Except PyErr String :=
  let is_python := pyEndsWith server_script_path ".py"
  let is_js := pyEndsWith server_script_path ".js"
  if ¬ (is_python || is_js) then
    .error (PyErr.valueError badSuffixMsg)
  else
    .ok (if is_python then "python" else "node")

/-- The child processes spawned by connect_to_server: the stdio
transport launches the selected command with the script path as its
argument, and only after the suffix check passed; the ValueError path
spawns nothing. -/
def connect_spawned (server_script_path : String) : List (String × String) :=
  match connect_command server_script_path with
  | .error _ => []
  | .ok command => [(command, server_script_path)]

/-- Events observable during the top-level main run. -/
inductive MainEvent where
  | usage
  | connectAttempt
  | chat
  | cleanup
  deriving DecidableEq

/-- The top-level main: with fewer than two argv entries it prints
usage and exits with status 1, before any client exists; otherwise it
runs connect_to_server then chat_loop inside try/finally, and the
finally clause invokes cleanup (exit_stack.aclose, closing the
transport streams and the owned child process) exactly once whether
the body completed or exited with a propagated failure. The outcomes
of connect_to_server and chat_loop are oracles: chat_loop reports
per-query errors and continues, but can itself end normally (quit) or
by a propagated failure, both covered by its oracle outcome. -/
def mainRun (argv : List String) (connectRes chatRes : Except PyErr Unit) :
    List MainEvent × Except PyErr Unit :=
  if argv.length < 2 then
    ([MainEvent.usage], .error (PyErr.systemExit 1))
  else
    let body : List MainEvent × Except PyErr Unit :=
      match connectRes with
      | .error e => ([MainEvent.connectAttempt], .error e)
      | .ok _ =>
          match chatRes with
          | .error e => ([MainEvent.connectAttempt, MainEvent.chat], .error e)
          | .ok _ => ([MainEvent.connectAttempt, MainEvent.chat], .ok ())
    (body.1 ++ [MainEvent.cleanup], body.2)

/-- A decoded JSON value as returned by response.json(). JSON numbers
are modelled as integers: no claim depends on numeric values and the
sample responses are only inspected structurally. -/
inductive Json where
  | null
  | bool (b : Bool)
  | num (n : Int)
  | str (s : String)
  | arr (l : List Json)
  | obj (l : List (String × Json))

/-- A decoded JSON object body, the shape make_nws_request's annotation
promises; its keys map to decoded values. -/
abbrev PyDict := List (String × Json)

/-- Python truthiness of a decoded JSON value. -/
def jsonTruthy : Json → Bool
  | Json.null => false
  | Json.bool b => b
  | Json.num n => decide (n ≠ 0)
  | Json.str s => decide (s ≠ "")
  | Json.arr l => !l.isEmpty
  | Json.obj l => !l.isEmpty

mutual
/-- Python str() of a decoded JSON value, as interpolated into the
f-strings; containers render their elements recursively. -/
def pyStr : Json → String
  | Json.null => "None"
  | Json.bool true => "True"
  | Json.bool false => "False"
  | Json.num n => toString n
  | Json.str s => s
  | Json.arr l => "[" ++ pyStrList l ++ "]"
  | Json.obj l => pyStrObj l
def pyStrList : List Json → String
  | [] => ""
  | [j] => pyStr j
  | j :: j2 :: rest => pyStr j ++ ", " ++ pyStrList (j2 :: rest)
def pyStrObj : List (String × Json) → String
  | [] => ""
  | [(k, v)] => k ++ ": " ++ pyStr v
  | (k, v) :: p :: rest => k ++ ": " ++ pyStr v ++ ", " ++ pyStrObj (p :: rest)
end

/-- Python dict subscript: the value at the key, or KeyError. -/
def dictGetItem (d : PyDict) (k : String) : Except PyErr Json :=
  match d.lookup k with
  | some v => .ok v
  | none => .error (PyErr.keyError k)

/-- Python subscript on a decoded JSON value with a string key: dict
lookup on an object, TypeError otherwise (string keys never subscript
the other shapes). -/
def jsonGetItem (j : Json) (k : String) : Except PyErr Json :=
  match j with
  | Json.obj d => dictGetItem d k
  | _ => .error PyErr.typeError

/-- Python dict.get with a default. -/
def dictGet (d : PyDict) (k : String) (dflt : Json) : Json :=
  (d.lookup k).getD dflt

/-- A Python list comprehension (or accumulating loop) applying a
fallible formatter left to right: the first raised error propagates. -/
def mapExcept (f : Json → Except PyErr String) : List Json → Except PyErr (List String)
  | [] => .ok []
  | j :: js => do
      let s ← f j
      let rest ← mapExcept f js
      .ok (s :: rest)

/-- The NWS API base constant of the server module. -/
def WEATHER_API_BASE : String := "https://api.weather.gov"

/-- The alerts URL built by get_alerts. -/
def alertsUrl (state : String) : String :=
  WEATHER_API_BASE ++ "/alerts/active/area/" ++ state

/-- The points URL built by get_forecast. The float coordinates are
modelled by their string renderings, which is all the function does
with them. -/
def pointsUrl (latitude longitude : String) : String :=
  WEATHER_API_BASE ++ "/points/" ++ latitude ++ "," ++ longitude

/-- format_alert: reads the feature's properties (KeyError when the key
is absent, TypeError when the feature is not an object), then renders
the f-string using dict.get defaults; calling .get on a non-dict value
is an AttributeError. -/
def format_alert (feature : Json) : Except PyErr String := do
  let props ← jsonGetItem feature "properties"
  match props with
  | Json.obj d =>
      .ok ("\nEvent: " ++ pyStr (dictGet d "event" (Json.str "Unknown")) ++
           "\nArea: " ++ pyStr (dictGet d "areaDesc" (Json.str "Unknown")) ++
           "\nSeverity: " ++ pyStr (dictGet d "severity" (Json.str "Unknown")) ++
           "\nDescription: " ++
             pyStr (dictGet d "description" (Json.str "No description available")) ++
           "\nInstructions: " ++
             pyStr (dictGet d "instruction"
               (Json.str "No specific instructions provided")) ++
           "\n")
  | _ => .error PyErr.attributeError

/-- get_alerts. The oracle fetch is make_nws_request: it returns the
decoded body, or none when the request failed, timed out, had a
non-success status or an undecodable body — all caught there and turned
into None. An absent or falsy response, or one without a "features"
key, yields the could-not-fetch sentinel; a falsy features value yields
the no-active-alerts sentinel; otherwise each feature is formatted and
the parts joined. The list comprehension is modelled for JSON arrays,
the only shape the endpoint produces; iterating another truthy value is
a TypeError. -/
def get_alerts (fetch : String → Option PyDict) (state : String) :
    Except PyErr String :=
  match fetch (alertsUrl state) with
  | none => .ok "アラートを取得できない、またはアラートが見つからない"
  | some response_data =>
      if response_data.isEmpty then
        .ok "アラートを取得できない、またはアラートが見つからない"
      else
        match response_data.lookup "features" with
        | none => .ok "アラートを取得できない、またはアラートが見つからない"
        | some feats =>
            if jsonTruthy feats = false then
              .ok "この状態に対するアクティブなアラートはありません"
            else
              match feats with
              | Json.arr l => do
                  let alerts ← mapExcept format_alert l
                  .ok (pyJoin "\n---\n" alerts)
              | _ => .error PyErr.typeError

/-- One forecast period rendered by the f-string in the loop body of
get_forecast, with KeyError on a missing key and TypeError when the
period is not an object; keys are read in rendering order. -/
def format_period (period : Json) : Except PyErr String := do
  let n ← jsonGetItem period "name"
  let t ← jsonGetItem period "temperature"
  let tu ← jsonGetItem period "temperatureUnit"
  let ws ← jsonGetItem period "windSpeed"
  let wd ← jsonGetItem period "windDirection"
  let df ← jsonGetItem period "detailedForecast"
  .ok ("\n" ++ pyStr n ++ ":\nTemperature: " ++ pyStr t ++ "°" ++ pyStr tu ++
       "\nWind: " ++ pyStr ws ++ " " ++ pyStr wd ++
       "\nForecast: " ++ pyStr df ++ "\n")

/-- get_forecast. A missing or falsy points response yields the first
sentinel; the forecast URL is read by two subscripts (each may raise);
make_nws_request validates its url parameter as str, so a non-string
value raises a pydantic validation error (a ValueError subclass); a
missing or falsy forecast response yields the second sentinel; the
periods are read by two subscripts, sliced to the first 5, formatted,
and joined. Slicing is modelled for JSON arrays, the only shape the
endpoint produces. -/
def get_forecast (fetch : String → Option PyDict)
    (latitude longitude : String) : Except PyErr String :=
  match fetch (pointsUrl latitude longitude) with
  | none => .ok "この場所の予報データを取得できません"
  | some points_response_data =>
      if points_response_data.isEmpty then
        .ok "この場所の予報データを取得できません"
      else do
        let props ← dictGetItem points_response_data "properties"
        let forecast_url ← jsonGetItem props "forecast"
        match forecast_url with
        | Json.str u =>
            (match fetch u with
            | none => .ok "詳細な予測を取得できない"
            | some forecast_response_data =>
                if forecast_response_data.isEmpty then
                  .ok "詳細な予測を取得できない"
                else do
                  let fprops ← dictGetItem forecast_response_data "properties"
                  let periods ← jsonGetItem fprops "periods"
                  match periods with
                  | Json.arr l => do
                      let forecasts ← mapExcept format_period (l.take 5)
                      .ok (pyJoin "\n---\n" forecasts)
                  | _ => .error PyErr.typeError)
        | _ => .error (PyErr.valueError "validation error: url must be str")

/-- Characterization of a successful run of the process_query loop: the
final state appends exactly the spec lists, and every continuation
response consumed along the way was nonempty with a text block first. -/
theorem runBlocks_ok (cont : Nat → List ContentBlock) (tr : Nat → String) :
    ∀ (blocks : List ContentBlock) (s s' : PQState),
      runBlocks cont tr blocks s = .ok s' →
      s' = ⟨s.finalText ++ outSpec cont s.k blocks,
            s.acc ++ blocks,
            s.messages ++ msgSpec tr s.toolCalls.length blocks,
            s.toolCalls ++ tuPairs blocks,
            s.k + cntTU blocks⟩ ∧
      ∀ j, s.k ≤ j → j < s.k + cntTU blocks → goodCont (cont j) := by
  intro blocks
  induction blocks with
  | nil =>
    intro s s' h
    simp only [runBlocks, Except.ok.injEq] at h
    subst h
    refine ⟨?_, ?_⟩
    · simp [outSpec, msgSpec, tuPairs, cntTU]
    · intro j h1 h2
      simp [cntTU] at h2
      exact absurd h1 (by omega)
  | cons b bs ih =>
    intro s s' h
    cases b with
    | text t =>
      rw [runBlocks, step] at h
      obtain ⟨heq, hgood⟩ := ih _ _ h
      subst heq
      refine ⟨?_, ?_⟩
      · simp [outSpec, msgSpec, tuPairs, cntTU]
      · intro j h1 h2
        exact hgood j h1 (by simpa [cntTU] using h2)
    | toolUse id name input =>
      rw [runBlocks, step] at h
      cases hc : cont s.k with
      | nil =>
        rw [hc] at h
        simp at h
      | cons c rest =>
        rw [hc] at h
        cases c with
        | text t =>
          simp only [] at h
          obtain ⟨heq, hgood⟩ := ih _ _ h
          subst heq
          refine ⟨?_, ?_⟩
          · simp [outSpec, msgSpec, tuPairs, cntTU, headTextD, hc]
            omega
          · intro j h1 h2
            rcases Nat.eq_or_lt_of_le h1 with he | hl
            · exact ⟨t, rest, by rw [← he]; exact hc⟩
            · refine hgood j (by simpa using hl) ?_
              simp only [cntTU] at h2
              simp
              omega
        | toolUse id2 n2 i2 =>
          simp at h

/-- The loop succeeds whenever every continuation response it will
consume is nonempty with a text block first. -/
theorem runBlocks_total (cont : Nat → List ContentBlock) (tr : Nat → String) :
    ∀ (blocks : List ContentBlock) (s : PQState),
      (∀ j, s.k ≤ j → j < s.k + cntTU blocks → goodCont (cont j)) →
      ∃ s', runBlocks cont tr blocks s = .ok s' := by
  intro blocks
  induction blocks with
  | nil =>
    intro s _
    exact ⟨s, rfl⟩
  | cons b bs ih =>
    intro s hgood
    cases b with
    | text t =>
      rw [runBlocks, step]
      exact ih _ (fun j h1 h2 => hgood j h1 (by simpa [cntTU] using h2))
    | toolUse id name input =>
      obtain ⟨t, rest, hc⟩ := hgood s.k le_rfl (by simp [cntTU])
      rw [runBlocks, step, hc]
      refine ih _ (fun j h1 h2 => hgood j ?_ ?_)
      · simp at h1
        omega
      · simp [cntTU] at h2 ⊢
        omega

/-- The loop reads each continuation response only through its first
block: two continuation oracles agreeing on first blocks produce
identical runs. -/
theorem runBlocks_head_agree (cont cont' : Nat → List ContentBlock)
    (tr : Nat → String)
    (hagree : ∀ k, (cont' k).head? = (cont k).head?) :
    ∀ (blocks : List ContentBlock) (s : PQState),
      runBlocks cont' tr blocks s = runBlocks cont tr blocks s := by
  intro blocks
  induction blocks with
  | nil =>
    intro s
    rfl
  | cons b bs ih =>
    intro s
    cases b with
    | text t =>
      rw [runBlocks, runBlocks, step]
      exact ih _
    | toolUse id name input =>
      have h := hagree s.k
      rw [runBlocks, runBlocks, step, step]
      cases hc : cont s.k with
      | nil =>
        rw [hc] at h
        have hc' : cont' s.k = [] := by
          cases hcc : cont' s.k with
          | nil => rfl
          | cons c r =>
            rw [hcc] at h
            simp at h
        rw [hc']
      | cons c rest =>
        rw [hc] at h
        cases hcc : cont' s.k with
        | nil =>
          rw [hcc] at h
          simp at h
        | cons c' rest' =>
          rw [hcc] at h
          simp at h
          subst h
          cases c' with
          | text t => exact ih _
          | toolUse i2 n2 a2 => rfl

/-- Unfolding of pyJoin on a cons with a nonempty tail. -/
theorem pyJoin_cons (sep x : String) (l : List String) (h : l ≠ []) :
    pyJoin sep (x :: l) = x ++ sep ++ pyJoin sep l := by
  cases l with
  | nil => exact absurd rfl h
  | cons y ys => rfl

/-- A joined list that has u immediately followed by v somewhere
contains the substring of u, the separator, and v, in that order. -/
theorem pyJoin_sandwich (u v : String) (ys : List String) :
    ∀ xs : List String,
      ∃ a b, pyJoin "\n" (xs ++ u :: v :: ys) = a ++ (u ++ "\n" ++ v) ++ b := by
  intro xs
  induction xs with
  | nil =>
    cases ys with
    | nil =>
      refine ⟨"", "", ?_⟩
      simp [pyJoin, String.empty_append, String.append_empty]
    | cons w ws =>
      refine ⟨"", "\n" ++ pyJoin "\n" (w :: ws), ?_⟩
      rw [List.nil_append, pyJoin_cons _ _ _ (by simp),
          pyJoin_cons _ _ _ (by simp)]
      simp [String.empty_append, String.append_assoc]
  | cons x xs ih =>
    obtain ⟨a, b, hab⟩ := ih
    refine ⟨x ++ "\n" ++ a, b, ?_⟩
    rw [List.cons_append, pyJoin_cons _ _ _ (by simp), hab]
    simp [String.append_assoc]

/-- On an all-text block list the spec functions collapse: no tool-use
blocks, no tool calls, the output lines are exactly the texts. -/
theorem allText_spec (bs : List ContentBlock)
    (h : ∀ b ∈ bs, ∃ t, b = ContentBlock.text t) :
    cntTU bs = 0 ∧ tuPairs bs = [] ∧
      ∀ cont k, outSpec cont k bs = textsOf bs := by
  induction bs with
  | nil => exact ⟨rfl, rfl, fun _ _ => rfl⟩
  | cons b bs ih =>
    obtain ⟨t, rfl⟩ := h b (by simp)
    obtain ⟨h1, h2, h3⟩ := ih (fun x hx => h x (by simp [hx]))
    exact ⟨by simpa [cntTU] using h1, by simpa [tuPairs] using h2,
           fun cont k => by simp [outSpec, textsOf, h3]⟩

/-- Tool-use counts add over list append. -/
theorem cntTU_append (xs ys : List ContentBlock) :
    cntTU (xs ++ ys) = cntTU xs + cntTU ys := by
  induction xs with
  | nil => simp [cntTU]
  | cons b bs ih =>
    cases b with
    | text t => simp [cntTU, ih]
    | toolUse i n a =>
      simp [cntTU, ih]
      omega

/-- Tool-call pairs concatenate over list append. -/
theorem tuPairs_append (xs ys : List ContentBlock) :
    tuPairs (xs ++ ys) = tuPairs xs ++ tuPairs ys := by
  induction xs with
  | nil => simp [tuPairs]
  | cons b bs ih => cases b <;> simp [tuPairs, ih]

/-- Output lines concatenate over list append, with the continuation
index advanced by the number of tool-use blocks consumed. -/
theorem outSpec_append (cont : Nat → List ContentBlock) (xs ys : List ContentBlock) :
    ∀ k, outSpec cont k (xs ++ ys) =
      outSpec cont k xs ++ outSpec cont (k + cntTU xs) ys := by
  induction xs with
  | nil =>
    intro k
    simp [outSpec, cntTU]
  | cons b bs ih =>
    intro k
    cases b with
    | text t => simp [outSpec, cntTU, ih]
    | toolUse i n a =>
      have h : k + 1 + cntTU bs = k + (cntTU bs + 1) := by omega
      simp only [List.cons_append, outSpec, cntTU, List.append_eq, ih (k + 1), h]

/-- Exactly one assistant message is appended per tool-use block. -/
theorem msgSpec_assistant_count (tr : Nat → String) :
    ∀ (bs : List ContentBlock) (n : Nat),
      ((msgSpec tr n bs).filter fun m => m.role == Role.assistant).length = cntTU bs := by
  intro bs
  induction bs with
  | nil =>
    intro n
    simp [msgSpec, cntTU]
  | cons b bs ih =>
    intro n
    cases b with
    | text t => simp [msgSpec, cntTU, ih]
    | toolUse i nm a =>
      simp [msgSpec, cntTU, ih, List.filter_cons,
            show (Role.assistant == Role.assistant) = true from rfl,
            show (Role.user == Role.assistant) = false from rfl]

/-- Every assistant message appended by the loop aliases the single
shared accumulator list. -/
theorem msgSpec_assistant_shared (tr : Nat → String) :
    ∀ (bs : List ContentBlock) (n : Nat) (m : Message),
      m ∈ msgSpec tr n bs → m.role = Role.assistant →
      m.content = MsgContent.sharedAcc := by
  intro bs
  induction bs with
  | nil =>
    intro n m hm
    simp [msgSpec] at hm
  | cons b bs ih =>
    intro n m hm hr
    cases b with
    | text t => exact ih n m (by simpa [msgSpec] using hm) hr
    | toolUse i nm a =>
      simp only [msgSpec, List.mem_cons] at hm
      rcases hm with rfl | rfl | hm
      · rfl
      · simp at hr
      · exact ih (n + 1) m hm hr

/-- C1: on a successful process_query run the loop makes exactly one
continuation completion call per tool-use block of the initial response
and then returns (the final k counts the continuation calls), the
call_tool dispatches are exactly the tool-use blocks of the initial
response (never one contained in a continuation response), and each
continuation response is consumed only through its first content block:
any continuation oracle agreeing on first blocks yields the identical
run and result. -/
theorem c1_single_hop (q : String) (cont cont' : Nat → List ContentBlock)
    (tr : Nat → String) (blocks : List ContentBlock) (s : PQState)
    (hok : runBlocks cont tr blocks (initState q) = .ok s)
    (hagree : ∀ k, (cont' k).head? = (cont k).head?) :
    s.k = cntTU blocks ∧ s.toolCalls = tuPairs blocks ∧
    runBlocks cont' tr blocks (initState q) = .ok s := by
  obtain ⟨heq, -⟩ := runBlocks_ok cont tr blocks _ _ hok
  subst heq
  refine ⟨by simp [initState], by simp [initState], ?_⟩
  rw [runBlocks_head_agree cont cont' tr hagree]
  exact hok

/-- Witness for C1: one tool-use block then one text block; the variant
continuation oracle carries an extra tool-use block in its tail, which
is never dispatched. -/
theorem c1_single_hop_witness :
    (⟨["[Calling tool get_alerts with args CA]", "cont", "done"],
      [ContentBlock.toolUse "id1" "get_alerts" "CA", ContentBlock.text "done"],
      [⟨Role.user, MsgContent.queryText "q"⟩,
       ⟨Role.assistant, MsgContent.sharedAcc⟩,
       ⟨Role.user, MsgContent.toolResult "id1" "res"⟩],
      [("get_alerts", "CA")], 1⟩ : PQState).k =
        cntTU [ContentBlock.toolUse "id1" "get_alerts" "CA", ContentBlock.text "done"] ∧
    (⟨["[Calling tool get_alerts with args CA]", "cont", "done"],
      [ContentBlock.toolUse "id1" "get_alerts" "CA", ContentBlock.text "done"],
      [⟨Role.user, MsgContent.queryText "q"⟩,
       ⟨Role.assistant, MsgContent.sharedAcc⟩,
       ⟨Role.user, MsgContent.toolResult "id1" "res"⟩],
      [("get_alerts", "CA")], 1⟩ : PQState).toolCalls =
        tuPairs [ContentBlock.toolUse "id1" "get_alerts" "CA", ContentBlock.text "done"] ∧
    runBlocks (fun _ => [ContentBlock.text "cont", ContentBlock.toolUse "id2" "extra" "x"])
      (fun _ => "res")
      [ContentBlock.toolUse "id1" "get_alerts" "CA", ContentBlock.text "done"]
      (initState "q") =
      .ok ⟨["[Calling tool get_alerts with args CA]", "cont", "done"],
           [ContentBlock.toolUse "id1" "get_alerts" "CA", ContentBlock.text "done"],
           [⟨Role.user, MsgContent.queryText "q"⟩,
            ⟨Role.assistant, MsgContent.sharedAcc⟩,
            ⟨Role.user, MsgContent.toolResult "id1" "res"⟩],
           [("get_alerts", "CA")], 1⟩ :=
  c1_single_hop "q" (fun _ => [ContentBlock.text "cont"])
    (fun _ => [ContentBlock.text "cont", ContentBlock.toolUse "id2" "extra" "x"])
    (fun _ => "res")
    [ContentBlock.toolUse "id1" "get_alerts" "CA", ContentBlock.text "done"]
    ⟨["[Calling tool get_alerts with args CA]", "cont", "done"],
     [ContentBlock.toolUse "id1" "get_alerts" "CA", ContentBlock.text "done"],
     [⟨Role.user, MsgContent.queryText "q"⟩,
      ⟨Role.assistant, MsgContent.sharedAcc⟩,
      ⟨Role.user, MsgContent.toolResult "id1" "res"⟩],
     [("get_alerts", "CA")], 1⟩
    (by decide) (fun _ => rfl)

/-- C2: when the initial response has exactly one tool-use block (all
other blocks text) and the continuation response starts with a text
block, process_query succeeds, call_tool is invoked exactly once with
that block's name and input, and the returned string contains the trace
line followed by the continuation's text. -/
theorem c2_one_tool_call (q : String) (cont : Nat → List ContentBlock)
    (tr : Nat → String) (pre post rest : List ContentBlock)
    (id name input t0 : String)
    (hpre : ∀ b ∈ pre, ∃ t, b = ContentBlock.text t)
    (hpost : ∀ b ∈ post, ∃ t, b = ContentBlock.text t)
    (hc : cont 0 = ContentBlock.text t0 :: rest) :
    ∃ s, runBlocks cont tr (pre ++ ContentBlock.toolUse id name input :: post)
        (initState q) = .ok s ∧
      s.toolCalls = [(name, input)] ∧
      ∃ a b, process_query q cont tr
          (pre ++ ContentBlock.toolUse id name input :: post) =
        .ok (a ++ (traceLine name input ++ "\n" ++ t0) ++ b) := by
  obtain ⟨hpre0, hpre1, hpre2⟩ := allText_spec pre hpre
  obtain ⟨hpost0, hpost1, hpost2⟩ := allText_spec post hpost
  have hcnt : cntTU (pre ++ ContentBlock.toolUse id name input :: post) = 1 := by
    rw [cntTU_append, hpre0]
    simp [cntTU, hpost0]
  obtain ⟨s, hok⟩ := runBlocks_total cont tr
    (pre ++ ContentBlock.toolUse id name input :: post) (initState q)
    (by
      intro j h1 h2
      rw [hcnt] at h2
      have hj : j = 0 := by
        simp [initState] at h2
        omega
      subst hj
      exact ⟨t0, rest, hc⟩)
  obtain ⟨heq, -⟩ := runBlocks_ok cont tr _ _ _ hok
  subst heq
  refine ⟨_, hok, ?_, ?_⟩
  · simp [initState, tuPairs_append, hpre1, tuPairs, hpost1]
  · have hout : outSpec cont 0 (pre ++ ContentBlock.toolUse id name input :: post) =
        textsOf pre ++ traceLine name input :: t0 :: textsOf post := by
      rw [outSpec_append, hpre0, hpre2]
      simp [outSpec, headTextD, hc, hpost2]
    obtain ⟨a, b, hab⟩ :=
      pyJoin_sandwich (traceLine name input) t0 (textsOf post) (textsOf pre)
    refine ⟨a, b, ?_⟩
    rw [process_query, hok]
    simp [initState, hout, Except.map]
    exact hab

/-- Witness for C2: a lone tool-use block with a one-text-block
continuation response. -/
theorem c2_one_tool_call_witness :
    ∃ s, runBlocks (fun _ => [ContentBlock.text "t0"]) (fun _ => "r")
        ([] ++ ContentBlock.toolUse "i" "n" "a" :: [])
        (initState "q") = .ok s ∧
      s.toolCalls = [("n", "a")] ∧
      ∃ a b, process_query "q" (fun _ => [ContentBlock.text "t0"]) (fun _ => "r")
          ([] ++ ContentBlock.toolUse "i" "n" "a" :: []) =
        .ok (a ++ (traceLine "n" "a" ++ "\n" ++ "t0") ++ b) :=
  c2_one_tool_call "q" (fun _ => [ContentBlock.text "t0"]) (fun _ => "r")
    [] [] [] "i" "n" "a" "t0"
    (fun b hb => absurd hb (List.not_mem_nil b))
    (fun b hb => absurd hb (List.not_mem_nil b))
    rfl

/-- C3 counterexample: on an initial response of two text blocks the
returned string is the newline join of the texts, which differs from
their plain concatenation. -/
theorem c3_counterexample :
    process_query "q" (fun _ => []) (fun _ => "")
      [ContentBlock.text "a", ContentBlock.text "b"] = .ok "a\nb" ∧
    ("a\nb" : String) ≠ "a" ++ "b" := by
  refine ⟨by decide, by decide⟩

/-- C3 as amended: on an initial response consisting only of text
blocks, process_query performs zero call_tool invocations and returns
the texts of those blocks joined with newline separators, the Python
str.join of the output buffer. -/
theorem c3_all_text (q : String) (cont : Nat → List ContentBlock)
    (tr : Nat → String) (blocks : List ContentBlock)
    (hall : ∀ b ∈ blocks, ∃ t, b = ContentBlock.text t) :
    ∃ s, runBlocks cont tr blocks (initState q) = .ok s ∧
      s.toolCalls = [] ∧
      process_query q cont tr blocks = .ok (pyJoin "\n" (textsOf blocks)) := by
  obtain ⟨h0, h1, h2⟩ := allText_spec blocks hall
  obtain ⟨s, hok⟩ := runBlocks_total cont tr blocks (initState q)
    (by
      intro j hj1 hj2
      rw [h0] at hj2
      simp [initState] at hj1 hj2)
  obtain ⟨heq, -⟩ := runBlocks_ok cont tr _ _ _ hok
  subst heq
  refine ⟨_, hok, by simp [initState, h1], ?_⟩
  rw [process_query, hok]
  simp [initState, Except.map, h2]

/-- Witness for C3 as amended: a single text block. -/
theorem c3_all_text_witness :
    ∃ s, runBlocks (fun _ => []) (fun _ => "") [ContentBlock.text "x"]
        (initState "q") = .ok s ∧
      s.toolCalls = [] ∧
      process_query "q" (fun _ => []) (fun _ => "") [ContentBlock.text "x"] =
        .ok (pyJoin "\n" (textsOf [ContentBlock.text "x"])) :=
  c3_all_text "q" (fun _ => []) (fun _ => "") [ContentBlock.text "x"]
    (fun b hb => ⟨"x", by simpa using hb⟩)

/-- C9: with two or more tool-use blocks in the initial response, every
assistant message appended to the conversation carries the shared
accumulator reference (Python appends the same list object each time),
and the accumulator's final value is the full initial block list, so
blocks encountered after the first assistant message was appended also
appear, retroactively, in that earlier message's content. -/
theorem c9_shared_accumulator (q : String) (cont : Nat → List ContentBlock)
    (tr : Nat → String) (blocks : List ContentBlock) (s : PQState)
    (hok : runBlocks cont tr blocks (initState q) = .ok s)
    (h2 : 2 ≤ cntTU blocks) :
    s.acc = blocks ∧
    ((s.messages.filter fun m => m.role == Role.assistant)).length = cntTU blocks ∧
    2 ≤ ((s.messages.filter fun m => m.role == Role.assistant)).length ∧
    ∀ m ∈ s.messages, m.role = Role.assistant → m.content = MsgContent.sharedAcc := by
  obtain ⟨heq, -⟩ := runBlocks_ok cont tr blocks _ _ hok
  subst heq
  have hcount : (((initState q).messages ++
      msgSpec tr (initState q).toolCalls.length blocks).filter
        fun m => m.role == Role.assistant).length = cntTU blocks := by
    rw [List.filter_append]
    simp [initState, List.filter_cons,
          show (Role.user == Role.assistant) = false from rfl,
          msgSpec_assistant_count]
  refine ⟨by simp [initState], hcount, ?_, ?_⟩
  · rw [hcount]
    exact h2
  · intro m hm hr
    simp only [initState, List.cons_append, List.nil_append, List.mem_cons] at hm
    rcases hm with rfl | hm
    · simp at hr
    · exact msgSpec_assistant_shared tr blocks _ m hm hr

/-- Witness for C9: two tool-use blocks. -/
theorem c9_shared_accumulator_witness :
    ((⟨["[Calling tool n1 with args a1]", "c", "[Calling tool n2 with args a2]", "c"],
       [ContentBlock.toolUse "1" "n1" "a1", ContentBlock.toolUse "2" "n2" "a2"],
       [⟨Role.user, MsgContent.queryText "q"⟩,
        ⟨Role.assistant, MsgContent.sharedAcc⟩,
        ⟨Role.user, MsgContent.toolResult "1" "r"⟩,
        ⟨Role.assistant, MsgContent.sharedAcc⟩,
        ⟨Role.user, MsgContent.toolResult "2" "r"⟩],
       [("n1", "a1"), ("n2", "a2")], 2⟩ : PQState).acc =
      [ContentBlock.toolUse "1" "n1" "a1", ContentBlock.toolUse "2" "n2" "a2"]) ∧
    ((⟨["[Calling tool n1 with args a1]", "c", "[Calling tool n2 with args a2]", "c"],
        [ContentBlock.toolUse "1" "n1" "a1", ContentBlock.toolUse "2" "n2" "a2"],
        [⟨Role.user, MsgContent.queryText "q"⟩,
         ⟨Role.assistant, MsgContent.sharedAcc⟩,
         ⟨Role.user, MsgContent.toolResult "1" "r"⟩,
         ⟨Role.assistant, MsgContent.sharedAcc⟩,
         ⟨Role.user, MsgContent.toolResult "2" "r"⟩],
        [("n1", "a1"), ("n2", "a2")], 2⟩ : PQState).messages.filter
          fun m => m.role == Role.assistant).length =
      cntTU [ContentBlock.toolUse "1" "n1" "a1", ContentBlock.toolUse "2" "n2" "a2"] :=
  (fun h => ⟨h.1, h.2.1⟩)
    (c9_shared_accumulator "q" (fun _ => [ContentBlock.text "c"]) (fun _ => "r")
      [ContentBlock.toolUse "1" "n1" "a1", ContentBlock.toolUse "2" "n2" "a2"]
      ⟨["[Calling tool n1 with args a1]", "c", "[Calling tool n2 with args a2]", "c"],
       [ContentBlock.toolUse "1" "n1" "a1", ContentBlock.toolUse "2" "n2" "a2"],
       [⟨Role.user, MsgContent.queryText "q"⟩,
        ⟨Role.assistant, MsgContent.sharedAcc⟩,
        ⟨Role.user, MsgContent.toolResult "1" "r"⟩,
        ⟨Role.assistant, MsgContent.sharedAcc⟩,
        ⟨Role.user, MsgContent.toolResult "2" "r"⟩],
       [("n1", "a1"), ("n2", "a2")], 2⟩
      (by decide) (by decide))

/-- C10: if some tool-use block within range is reached with a
continuation response that is empty or whose first content block is a
tool-use block (so carries no text attribute), process_query raises
instead of returning a result string. -/
theorem c10_bad_continuation (q : String) (cont : Nat → List ContentBlock)
    (tr : Nat → String) (blocks : List ContentBlock) (k : Nat)
    (hk : k < cntTU blocks)
    (hbad : cont k = [] ∨ ∃ id name input rest,
        cont k = ContentBlock.toolUse id name input :: rest) :
    ∃ e, process_query q cont tr blocks = .error e := by
  cases hrun : runBlocks cont tr blocks (initState q) with
  | error e =>
    exact ⟨e, by rw [process_query, hrun]; rfl⟩
  | ok s =>
    obtain ⟨-, hg⟩ := runBlocks_ok cont tr blocks _ _ hrun
    obtain ⟨t, rest, hgk⟩ := hg k (by simp [initState])
      (by simp [initState]; omega)
    rcases hbad with hb | ⟨i2, n2, a2, r2, hb⟩ <;> simp [hb] at hgk

/-- Witness for C10: a single tool-use block whose continuation
response is empty. -/
theorem c10_bad_continuation_witness :
    ∃ e, process_query "q" (fun _ => []) (fun _ => "r")
      [ContentBlock.toolUse "1" "n" "a"] = .error e :=
  c10_bad_continuation "q" (fun _ => []) (fun _ => "r")
    [ContentBlock.toolUse "1" "n" "a"] 0 (by decide) (Or.inl rfl)

/-- Two suffixes of the same character list with equal lengths
coincide; hence no path ends in both ".py" and ".js". -/
theorem pyEndsWith_js_not_py (p : String) (h : pyEndsWith p ".js" = true) :
    pyEndsWith p ".py" = false := by
  by_contra hpy
  have hpy' : pyEndsWith p ".py" = true := by
    cases hx : pyEndsWith p ".py" with
    | false => exact absurd hx hpy
    | true => rfl
  have h1 : (".py".data : List Char) <:+ p.data := of_decide_eq_true hpy'
  have h2 : (".js".data : List Char) <:+ p.data := of_decide_eq_true h
  obtain ⟨t1, ht1⟩ := h1
  obtain ⟨t2, ht2⟩ := h2
  have heq : (".py".data : List Char) = ".js".data :=
    List.append_inj_right' (ht1.trans ht2.symm) (by decide)
  simp at heq

/-- C4: a script path ending in neither recognized suffix makes
connect_to_server raise ValueError and spawn no child process; a path
ending in ".py" selects the python interpreter and one ending in ".js"
selects the node interpreter. -/
theorem c4_suffix_dispatch (p : String) :
    (pyEndsWith p ".py" = false → pyEndsWith p ".js" = false →
      connect_command p = .error (PyErr.valueError badSuffixMsg) ∧
      connect_spawned p = []) ∧
    (pyEndsWith p ".py" = true → connect_command p = .ok "python") ∧
    (pyEndsWith p ".js" = true → connect_command p = .ok "node") := by
  refine ⟨?_, ?_, ?_⟩
  · intro h1 h2
    refine ⟨by simp [connect_command, h1, h2], ?_⟩
    simp [connect_spawned, connect_command, h1, h2]
  · intro h
    simp [connect_command, h]
  · intro h
    have hpy := pyEndsWith_js_not_py p h
    simp [connect_command, h, hpy]

/-- Witness for C4: a text file is rejected with nothing spawned, a .py
path selects python, a .js path selects node. -/
theorem c4_suffix_dispatch_witness :
    (connect_command "weather.txt" = .error (PyErr.valueError badSuffixMsg) ∧
     connect_spawned "weather.txt" = []) ∧
    connect_command "main.py" = .ok "python" ∧
    connect_command "main.js" = .ok "node" :=
  ⟨(c4_suffix_dispatch "weather.txt").1 (by decide) (by decide),
   (c4_suffix_dispatch "main.py").2.1 (by decide),
   (c4_suffix_dispatch "main.js").2.2 (by decide)⟩

/-- C8: whenever the script path argument is present, every exit path
of main — normal chat-loop termination, a connect failure, or a
propagated chat-loop failure — performs the session cleanup exactly
once. -/
theorem c8_cleanup_once (argv : List String)
    (connectRes chatRes : Except PyErr Unit) (h : 2 ≤ argv.length) :
    (mainRun argv connectRes chatRes).1.count MainEvent.cleanup = 1 := by
  rw [mainRun.eq_def, if_neg (by omega)]
  cases connectRes with
  | error e => rfl
  | ok u =>
    cases chatRes with
    | error e => rfl
    | ok u => rfl

/-- Witness for C8: a two-entry argv with both stages succeeding. -/
theorem c8_cleanup_once_witness :
    (mainRun ["main.py", "weather.py"] (.ok ()) (.ok ())).1.count
      MainEvent.cleanup = 1 :=
  c8_cleanup_once ["main.py", "weather.py"] (.ok ()) (.ok ()) (by decide)

/-- C5 counterexample: a decodable upstream body that is truthy but
lacks the expected "properties" key makes get_forecast raise KeyError
to its caller instead of returning an informational string. -/
theorem c5_counterexample :
    get_forecast (fun _ => some [("x", Json.null)]) "35.0" "139.0" =
      .error (PyErr.keyError "properties") := by
  rfl

/-- C5 as amended: every upstream outcome that make_nws_request absorbs
— network failure, timeout, non-success HTTP status, undecodable body,
all surfaced to the tools as None — yields a plain informational string
with no raised error, at both fetches: an oracle failing every request
makes get_forecast return the first sentinel and get_alerts its
could-not-fetch sentinel, and an oracle whose points fetch succeeds but
whose forecast fetch is absorbed into None makes get_forecast return
the second sentinel; but a decodable response missing the structurally
expected keys raises (KeyError) and propagates. -/
theorem c5_none_informational (f g : String → Option PyDict)
    (latitude longitude state lat2 lon2 u : String) (pd : PyDict) (props : Json)
    (hf : ∀ v, f v = none)
    (hg1 : g (pointsUrl lat2 lon2) = some pd)
    (hg2 : pd.isEmpty = false)
    (hg3 : pd.lookup "properties" = some props)
    (hg4 : jsonGetItem props "forecast" = .ok (Json.str u))
    (hg5 : g u = none) :
    get_forecast f latitude longitude =
      .ok "この場所の予報データを取得できません" ∧
    get_alerts f state =
      .ok "アラートを取得できない、またはアラートが見つからない" ∧
    get_forecast g lat2 lon2 = .ok "詳細な予測を取得できない" := by
  refine ⟨by simp [get_forecast, hf], by simp [get_alerts, hf], ?_⟩
  rw [get_forecast.eq_def, hg1]
  simp [hg2, dictGetItem, hg3, hg4, hg5, Except.bind, bind]

/-- Witness for C5 as amended: the all-failures oracle, and an oracle
answering the points request but failing the forecast request. -/
theorem c5_none_informational_witness :
    get_forecast (fun _ => none) "35.0" "139.0" =
      .ok "この場所の予報データを取得できません" ∧
    get_alerts (fun _ => none) "CA" =
      .ok "アラートを取得できない、またはアラートが見つからない" ∧
    get_forecast
      (fun v => if v = "F" then none
        else some [("properties", Json.obj [("forecast", Json.str "F")])])
      "1.0" "2.0" = .ok "詳細な予測を取得できない" :=
  c5_none_informational (fun _ => none)
    (fun v => if v = "F" then none
      else some [("properties", Json.obj [("forecast", Json.str "F")])])
    "35.0" "139.0" "CA" "1.0" "2.0" "F"
    [("properties", Json.obj [("forecast", Json.str "F")])]
    (Json.obj [("forecast", Json.str "F")])
    (fun _ => rfl) rfl rfl rfl rfl rfl

/-- C6: a missing upstream response yields the could-not-fetch
sentinel, a successful response whose feature list is empty yields the
no-active-alerts sentinel, and the two sentinel strings differ. -/
theorem c6_distinct_sentinels (f g : String → Option PyDict)
    (s t : String) (d : PyDict)
    (hf : f (alertsUrl s) = none)
    (hg : g (alertsUrl t) = some d)
    (hd : d.lookup "features" = some (Json.arr [])) :
    get_alerts f s = .ok "アラートを取得できない、またはアラートが見つからない" ∧
    get_alerts g t = .ok "この状態に対するアクティブなアラートはありません" ∧
    ("アラートを取得できない、またはアラートが見つからない" : String) ≠
      "この状態に対するアクティブなアラートはありません" := by
  refine ⟨by simp [get_alerts, hf], ?_, by decide⟩
  have hne : d.isEmpty = false := by
    cases d with
    | nil => simp at hd
    | cons p rest => rfl
  simp [get_alerts, hg, hne, hd, jsonTruthy]

/-- Witness for C6: concrete oracles for the two branches. -/
theorem c6_distinct_sentinels_witness :
    get_alerts (fun _ => none) "CA" =
      .ok "アラートを取得できない、またはアラートが見つからない" ∧
    get_alerts (fun _ => some [("features", Json.arr [])]) "NY" =
      .ok "この状態に対するアクティブなアラートはありません" ∧
    ("アラートを取得できない、またはアラートが見つからない" : String) ≠
      "この状態に対するアクティブなアラートはありません" :=
  c6_distinct_sentinels (fun _ => none)
    (fun _ => some [("features", Json.arr [])]) "CA" "NY"
    [("features", Json.arr [])] rfl rfl rfl

/-- C7: whatever list of periods the upstream forecast response
carries, the result of get_forecast is computed from at most the first
5 of them: it equals the join of the formatted first-5 slice. -/
theorem c7_take_five (fetch : String → Option PyDict)
    (latitude longitude u : String) (pd fd : PyDict)
    (props fprops : Json) (l : List Json)
    (h1 : fetch (pointsUrl latitude longitude) = some pd)
    (h2 : pd.isEmpty = false)
    (h3 : pd.lookup "properties" = some props)
    (h4 : jsonGetItem props "forecast" = .ok (Json.str u))
    (h5 : fetch u = some fd)
    (h6 : fd.isEmpty = false)
    (h7 : fd.lookup "properties" = some fprops)
    (h8 : jsonGetItem fprops "periods" = .ok (Json.arr l)) :
    get_forecast fetch latitude longitude =
      (mapExcept format_period (l.take 5)).map (pyJoin "\n---\n") := by
  rw [get_forecast.eq_def, h1]
  cases hm : mapExcept format_period (l.take 5) with
  | error e =>
    simp [h2, dictGetItem, h3, h7, h4, h5, h6, h8, hm,
          Except.map, Except.bind, bind]
  | ok fs =>
    simp [h2, dictGetItem, h3, h7, h4, h5, h6, h8, hm,
          Except.map, Except.bind, bind]

/-- Witness for C7: a points body whose properties carry both the
forecast URL and an empty periods array. -/
theorem c7_take_five_witness :
    get_forecast
      (fun _ => some [("properties",
        Json.obj [("forecast", Json.str "F"), ("periods", Json.arr [])])])
      "1.0" "2.0" =
      (mapExcept format_period (([] : List Json).take 5)).map (pyJoin "\n---\n") :=
  c7_take_five
    (fun _ => some [("properties",
      Json.obj [("forecast", Json.str "F"), ("periods", Json.arr [])])])
    "1.0" "2.0" "F"
    [("properties", Json.obj [("forecast", Json.str "F"), ("periods", Json.arr [])])]
    [("properties", Json.obj [("forecast", Json.str "F"), ("periods", Json.arr [])])]
    (Json.obj [("forecast", Json.str "F"), ("periods", Json.arr [])])
    (Json.obj [("forecast", Json.str "F"), ("periods", Json.arr [])])
    [] rfl rfl rfl rfl rfl rfl rfl rfl
